import Mathlib

/-!
Shallow embedding of `src/components/members/password/PasswordManagementSection.tsx`.

Timestamps are modelled as epoch milliseconds (`Int`), matching the JS
`Date.getTime()` representation.  `Math.floor(a / b)` on reals with an
integer numerator and positive integer denominator is floor division,
which for a positive divisor coincides with `Int.ediv`; where the code
only ever sees a positive numerator we use `Int.toNat` followed by `Nat`
division, which agrees with the floor.
-/

namespace PasswordMgmt

/-- The props of `PasswordManagementSection` (lines 14-22 of the source).
`passwordSetAt` and `lockedUntil` are nullable `Date`s, modelled as
`Option Int` epoch milliseconds. -/
structure Props where
  memberId : String
  memberNumber : String
  memberName : String
  passwordSetAt : Option Int
  failedLoginAttempts : Nat
  lockedUntil : Option Int
  passwordResetRequired : Bool
deriving DecidableEq, Repr

/-- The locally owned component state (lines 33-35 of the source). -/
structure LocalState where
  showResetDialog : Bool
  isUnlocking : Bool
  timeRemaining : Option String
deriving DecidableEq, Repr

/-- The two values of `passwordAgeStatus` (line 42 of the source). -/
inductive AgeStatus where
  | warning
  | success
deriving DecidableEq, Repr

/-- Line 38-40: `passwordSetAt ? Math.floor((Date.now() - passwordSetAt.getTime()) / 86400000) : 0`.
`Int.ediv` with the positive divisor 86400000 is exactly `Math.floor` of the
real quotient. -/
def passwordAgeInDays (p : Props) (now : Int) : Int :=
  match p.passwordSetAt with
  | some t => (now - t) / 86400000
  | none => 0

/-- Line 42: `passwordAgeInDays > 90 ? 'warning' : 'success'`. -/
def passwordAgeStatus (p : Props) (now : Int) : AgeStatus :=
  if passwordAgeInDays p now > 90 then AgeStatus.warning else AgeStatus.success

/-- Line 127: the text of the password-status badge.  `fmtDistance` abstracts
the `date-fns` library call `formatDistanceToNow` (an external library, not
part of this repository). -/
def passwordBadgeText (fmtDistance : Int → String) (p : Props) : String :=
  match p.passwordSetAt with
  | some t => "Set " ++ fmtDistance t ++ " ago"
  | none => "No Password"

/-- Line 125: the badge class string applying the yellow (warning) or green
(success) age styling. -/
def passwordBadgeClass (p : Props) (now : Int) : String :=
  let c := if passwordAgeStatus p now = AgeStatus.warning then "yellow" else "green"
  "bg-" ++ c ++ "-500/10 text-" ++ c ++ "-500"

/-- The four battery icons of lines 46-49. -/
inductive BatteryTier where
  | full
  | medium
  | low
  | warning
deriving DecidableEq, Repr

/-- Lines 45-50: `BatteryIcon`, the tier selected from `failedLoginAttempts`. -/
def BatteryIcon (failedLoginAttempts : Nat) : BatteryTier :=
  if failedLoginAttempts = 0 then BatteryTier.full
  else if failedLoginAttempts ≤ 2 then BatteryTier.medium
  else if failedLoginAttempts ≤ 4 then BatteryTier.low
  else BatteryTier.warning

/-- The partition stated by the spec: count 0 is the first tier, 1-2 the
second, 3-4 the third, 5 and above the fourth.  Written from the words of
the spec, to be compared with `BatteryIcon`. -/
def batteryTierSpec (n : Nat) : BatteryTier :=
  if n = 0 then BatteryTier.full
  else if 1 ≤ n ∧ n ≤ 2 then BatteryTier.medium
  else if 3 ≤ n ∧ n ≤ 4 then BatteryTier.low
  else BatteryTier.warning

/-- Lines 56-68: one execution of `updateTimer` for a non-null `lockedUntil`.
`diff = lockedUntil - now`; if `diff <= 0` the countdown is cleared
(`setTimeRemaining(null)`), else the string
`Math.floor(diff/60000) ++ "m " ++ Math.floor((diff % 60000)/1000) ++ "s"`
is stored.  With `diff > 0`, `Nat` division on `diff.toNat` is that floor. -/
def updateTimer (lockedUntil now : Int) : Option String :=
  if lockedUntil - now ≤ 0 then none
  else
    some (toString ((lockedUntil - now).toNat / 60000) ++ "m "
      ++ toString ((lockedUntil - now).toNat % 60000 / 1000) ++ "s")

/-- The countdown string as the spec words it: for remaining milliseconds
`diff > 0` the string is `floor(diff/60000)` minutes and
`floor((diff mod 60000)/1000)` seconds; for `diff <= 0` it is cleared.
Written from the words of the claim, to be compared with `updateTimer`. -/
def countdownSpecString (diff : Int) : Option String :=
  if diff ≤ 0 then none
  else
    some (toString (diff / 60000).toNat ++ "m "
      ++ toString ((diff % 60000) / 1000).toNat ++ "s")

/-- The displayed values over ticks `k = 0, 1, ..., ticks` at exactly one
second apart, starting with the synchronous first update at `start`
(line 71 runs `updateTimer()` immediately after `setInterval`). -/
def countdownTrace (expiry start : Int) (ticks : Nat) : List (Option String) :=
  (List.range (ticks + 1)).map (fun k => updateTimer expiry (start + 1000 * k))

/-- Lines 53-74, one firing of the effect body or of a tick: with
`lockedUntil` null the effect returns early and never writes
`timeRemaining`; with it set, a tick stores `updateTimer`.  The returned
value is the `timeRemaining` state after the firing. -/
def lockEffectStep (lockedUntil : Option Int) (now : Int)
    (timeRemaining : Option String) : Option String :=
  match lockedUntil with
  | none => timeRemaining
  | some t => updateTimer t now

/-- Line 54 and 70: the effect installs an interval timer exactly when
`lockedUntil` is non-null (`if (!lockedUntil) return;` precedes
`setInterval`). -/
def lockEffectStartsTimer : Option Int → Bool
  | none => false
  | some _ => true

/-- Lines 131 and 159: the lock badge and the unlock button render under the
condition `lockedUntil && new Date(lockedUntil) > new Date()`. -/
def lockBadgeVisible (p : Props) (now : Int) : Bool :=
  match p.lockedUntil with
  | none => false
  | some t => decide (now < t)

/-- Line 159: the unlock button has the same visibility condition as the
lock badge. -/
def unlockButtonVisible (p : Props) (now : Int) : Bool :=
  match p.lockedUntil with
  | none => false
  | some t => decide (now < t)

/-- Line 164 and 168: the unlock button is disabled exactly while
`isUnlocking`, and shows the busy label while `isUnlocking`. -/
def unlockButtonDisabled (isUnlocking : Bool) : Bool := isUnlocking

/-- Line 168: `isUnlocking ? 'Unlocking...' : 'Unlock'`. -/
def unlockButtonLabel (isUnlocking : Bool) : String :=
  if isUnlocking then "Unlocking..." else "Unlock"

/-- The outcome of the `supabase.rpc` call in `handleUnlockAccount`:
it resolves with no error, resolves with an error object carrying a
message, or the awaited call itself throws. -/
inductive RpcOutcome where
  | ok
  | err (msg : String)
  | thrown (msg : String)
deriving DecidableEq, Repr

/-- The observable operations emitted by `handleUnlockAccount`:
console logging, the `isUnlocking` state writes, the remote procedure
call, and the two toast notifications. -/
inductive Event where
  | logUnlocking (memberNumber memberName : String)
  | setUnlocking (b : Bool)
  | rpcCall (procName : String) (memberNumber : String)
  | logError (context : String) (msg : String) (memberNumber : String)
  | toastSuccess (title descr : String)
  | toastError (title descr : String)
deriving DecidableEq, Repr

/-- Lines 77-96, the `try` block of `handleUnlockAccount`: the log, the
`setIsUnlocking(true)`, the rpc call `reset_failed_login` with the member
number, then on a returned error a `console.error` followed by `throw
error`; on a thrown call the exception propagates directly.  The result
pairs the events emitted before leaving the block with the block's
exceptional or normal outcome. -/
def unlockTryBody (memberNumber memberName : String) (o : RpcOutcome) :
    List Event × Except String Unit :=
  let pre := [Event.logUnlocking memberNumber memberName,
    Event.setUnlocking true,
    Event.rpcCall "reset_failed_login" memberNumber]
  match o with
  | RpcOutcome.ok =>
      (pre ++ [Event.toastSuccess "Account has been unlocked"
        ("Successfully unlocked account for " ++ memberName)], Except.ok ())
  | RpcOutcome.err m =>
      (pre ++ [Event.logError "Error unlocking account" m memberNumber],
        Except.error m)
  | RpcOutcome.thrown m => (pre, Except.error m)

/-- Lines 102-111, the `catch` block: log the failure and show the error
toast whose description is the message of the caught error; nothing is
re-thrown. -/
def catchEvents (memberNumber : String) : Except String Unit → List Event
  | Except.ok _ => []
  | Except.error m =>
      [Event.logError "Failed to unlock account" m memberNumber,
        Event.toastError "Failed to unlock account" m]

/-- Lines 76-115: `handleUnlockAccount` = try body, catch, then the
`finally` block `setIsUnlocking(false)`.  Total: every outcome yields a
plain event list. -/
def handleUnlockAccount (memberNumber memberName : String) (o : RpcOutcome) :
    List Event :=
  let r := unlockTryBody memberNumber memberName o
  r.1 ++ catchEvents memberNumber r.2 ++ [Event.setUnlocking false]

/-- Recogniser for remote-procedure-call events. -/
def isRpcCall : Event → Bool
  | Event.rpcCall _ _ => true
  | _ => false

/-- `handleUnlockAccount` invoked with the props of the component
(line 85 passes `memberNumber`; `memberId` is never read). -/
def handleUnlock (p : Props) (o : RpcOutcome) : List Event :=
  handleUnlockAccount p.memberNumber p.memberName o

/-- The countdown effect invoked with the props of the component. -/
def lockEffect (p : Props) (now : Int) (timeRemaining : Option String) :
    Option String :=
  lockEffectStep p.lockedUntil now timeRemaining

/-- The events that can change `showResetDialog`: the Reset Password
button click (line 175) and the dialog invoking the `onOpenChange`
callback with a boolean (line 192). -/
inductive DialogEvent where
  | clickResetPassword
  | dialogOpenChange (b : Bool)
deriving DecidableEq, Repr

/-- Line 33: `useState(false)`. -/
def showResetDialogInit : Bool := false

/-- The transition function on `showResetDialog`: the button handler is
`() => setShowResetDialog(true)` and the dialog callback is
`setShowResetDialog` itself; no other code writes this state. -/
def dialogStep : Bool → DialogEvent → Bool
  | _, DialogEvent.clickResetPassword => true
  | _, DialogEvent.dialogOpenChange b => b

/-- Modelled from the spec: `AdminPasswordResetDialog` is a delegated
component whose code is not under src/; per the spec its own close
callback returns the dialog to hidden state, i.e. it invokes
`onOpenChange` with `false`. -/
def dialogCloseEvent : DialogEvent := DialogEvent.dialogOpenChange false

/-- The rendered output of the component, one field per rendered element
of lines 117-196. -/
structure RenderOutput where
  badgeText : String
  badgeClass : String
  lockBadge : Option String
  resetRequiredBadge : Bool
  batteryTier : BatteryTier
  failedAttemptsText : String
  unlockButton : Option (Bool × String)
  resetButtonLabel : String
  magicLink : String × String
  resetDialog : Bool × String × String
deriving DecidableEq, Repr

/-- Lines 117-196: the render function of `PasswordManagementSection` as a
function of props, local state and the current time.  `fmtDistance`
abstracts the `date-fns` call. -/
def render (fmtDistance : Int → String) (p : Props) (s : LocalState)
    (now : Int) : RenderOutput :=
  { badgeText := passwordBadgeText fmtDistance p
    badgeClass := passwordBadgeClass p now
    lockBadge :=
      if lockBadgeVisible p now then
        some (match s.timeRemaining with
          | some tr => "Locked for " ++ tr
          | none => "Locked")
      else none
    resetRequiredBadge := p.passwordResetRequired
    batteryTier := BatteryIcon p.failedLoginAttempts
    failedAttemptsText := "Failed attempts: " ++ toString p.failedLoginAttempts
    unlockButton :=
      if unlockButtonVisible p now then
        some (unlockButtonDisabled s.isUnlocking, unlockButtonLabel s.isUnlocking)
      else none
    resetButtonLabel := "Reset Password"
    magicLink := (p.memberNumber, p.memberName)
    resetDialog := (s.showResetDialog, p.memberNumber, p.memberName) }

/-- Concrete props with a null password-set timestamp. -/
def pNoPassword : Props :=
  { memberId := "id-1", memberNumber := "100", memberName := "Alice"
    passwordSetAt := none, failedLoginAttempts := 0
    lockedUntil := none, passwordResetRequired := false }

/-- Concrete props whose password was set at epoch 0. -/
def pAge : Props :=
  { memberId := "id-2", memberNumber := "200", memberName := "Beth"
    passwordSetAt := some 0, failedLoginAttempts := 1
    lockedUntil := none, passwordResetRequired := false }

/-- Concrete props locked until epoch millisecond 1000. -/
def pLocked : Props :=
  { memberId := "id-3", memberNumber := "300", memberName := "Cara"
    passwordSetAt := some 0, failedLoginAttempts := 5
    lockedUntil := some 1000, passwordResetRequired := false }

end PasswordMgmt

namespace PasswordMgmt

/-- Claim C1 fails as stated: for a rendering with a null password-set
timestamp the badge text is "No Password", yet an age classification IS
applied — the age defaults to 0 days, `passwordAgeStatus` is `success`,
and the green success styling is rendered on the badge. -/
theorem noPassword_success_classification_applied :
    passwordBadgeText (fun _ => "") pNoPassword = "No Password" ∧
    passwordAgeStatus pNoPassword 0 = AgeStatus.success ∧
    passwordBadgeClass pNoPassword 0 = "bg-green-500/10 text-green-500" :=
  ⟨rfl, rfl, rfl⟩

/-- Claim C1 (amended): for every rendering where the password-set
timestamp prop is null, the password status badge renders the text
"No Password"; the age defaults to 0 days, so the success (fresh)
classification is applied and the badge carries the green success
styling. -/
theorem noPassword_badge (fmtDistance : Int → String) (p : Props) (now : Int)
    (h : p.passwordSetAt = none) :
    passwordBadgeText fmtDistance p = "No Password" ∧
    passwordAgeInDays p now = 0 ∧
    passwordAgeStatus p now = AgeStatus.success ∧
    passwordBadgeClass p now = "bg-green-500/10 text-green-500" := by
  have h1 : passwordAgeInDays p now = 0 := by simp [passwordAgeInDays, h]
  have h2 : passwordAgeStatus p now = AgeStatus.success := by
    simp [passwordAgeStatus, h1]
  refine ⟨by simp [passwordBadgeText, h], h1, h2, ?_⟩
  simp [passwordBadgeClass, h2]

/-- Witness for `noPassword_badge` at concrete props with a null
password-set timestamp. -/
theorem noPassword_badge_witness :
    pNoPassword.passwordSetAt = none ∧
    (passwordBadgeText (fun _ => "x") pNoPassword = "No Password" ∧
     passwordAgeInDays pNoPassword 5 = 0 ∧
     passwordAgeStatus pNoPassword 5 = AgeStatus.success ∧
     passwordBadgeClass pNoPassword 5 = "bg-green-500/10 text-green-500") :=
  ⟨rfl, noPassword_badge (fun _ => "x") pNoPassword 5 rfl⟩

/-- Claim C2 fails as stated: with the lock expiring exactly 65000 ms
after the first synchronous update and ticks exactly one second apart,
the displayed string never reaches "0m 0s" — the last displayed value is
"0m 1s" (tick 64) and the countdown is cleared at the expiry instant
(tick 65). -/
theorem countdown_never_shows_zero :
    ((countdownTrace 65000 0 65).all (fun s => !(s == some "0m 0s"))) = true ∧
    (countdownTrace 65000 0 65).getD 64 none = some "0m 1s" ∧
    (countdownTrace 65000 0 65).getD 65 (some "") = none :=
  ⟨rfl, rfl, rfl⟩

/-- Claim C2 (amended): at each timer update with remaining milliseconds
diff > 0 the string is floor(diff/60000) minutes and
floor((diff mod 60000)/1000) seconds, and with diff ≤ 0 the countdown is
cleared (`updateTimer` agrees with `countdownSpecString` everywhere);
for a lock expiry exactly 65 seconds ahead, the first synchronous update
shows "1m 5s"; "0m 0s" is shown exactly when a tick lands strictly
inside the final second (e.g. diff = 500 ms); at the expiry instant the
countdown is cleared.  Under exact one-second ticks the last displayed
value is therefore "0m 1s", not "0m 0s". -/
theorem countdown_behaviour :
    (∀ lockedUntil now : Int,
      updateTimer lockedUntil now = countdownSpecString (lockedUntil - now)) ∧
    updateTimer 65000 0 = some "1m 5s" ∧
    (countdownTrace 65000 0 65).getD 0 none = some "1m 5s" ∧
    updateTimer 65000 64500 = some "0m 0s" ∧
    updateTimer 65000 65000 = none := by
  refine ⟨?_, rfl, rfl, rfl, rfl⟩
  intro lockedUntil now
  unfold updateTimer countdownSpecString
  by_cases h : lockedUntil - now ≤ 0
  · simp [h]
  · have h1 : (lockedUntil - now).toNat / 60000
        = ((lockedUntil - now) / 60000).toNat := by omega
    have h2 : (lockedUntil - now).toNat % 60000 / 1000
        = (((lockedUntil - now) % 60000) / 1000).toNat := by omega
    simp [h, h1, h2]

/-- Claim C3: once the current time has reached or passed the lock-expiry
timestamp, a render with the unchanged props shows neither the lock badge
nor the unlock button, and any firing of the countdown effect clears the
countdown string. -/
theorem lock_ui_hidden_after_expiry (p : Props) (now t : Int)
    (timeRemaining : Option String)
    (h : p.lockedUntil = some t) (hle : t ≤ now) :
    lockBadgeVisible p now = false ∧
    unlockButtonVisible p now = false ∧
    lockEffectStep p.lockedUntil now timeRemaining = none := by
  refine ⟨?_, ?_, ?_⟩
  · simp [lockBadgeVisible, h]; omega
  · simp [unlockButtonVisible, h]; omega
  · simp [lockEffectStep, h, updateTimer, show t - now ≤ 0 by omega]

/-- Witness for `lock_ui_hidden_after_expiry`: props locked until
millisecond 1000, rendered at millisecond 2000, with a stale countdown
string in state. -/
theorem lock_ui_hidden_after_expiry_witness :
    pLocked.lockedUntil = some 1000 ∧ (1000 : Int) ≤ 2000 ∧
    (lockBadgeVisible pLocked 2000 = false ∧
     unlockButtonVisible pLocked 2000 = false ∧
     lockEffectStep pLocked.lockedUntil 2000 (some "0m 1s") = none) :=
  ⟨rfl, by decide,
    lock_ui_hidden_after_expiry pLocked 2000 1000 (some "0m 1s") rfl (by decide)⟩

/-- Claim C4: for every invocation of the unlock action, the full event
trace per outcome: the log, `setIsUnlocking(true)`, the single rpc call
`reset_failed_login` with the member number; on success the success
toast naming the member; on a returned or thrown error the error toast
carrying the error message; and in every case the `finally` block
re-enables the control (`setIsUnlocking(false)` is the last event).
While in flight the button is disabled and labelled "Unlocking...". -/
theorem unlock_action_events (memberNumber memberName m : String) :
    handleUnlockAccount memberNumber memberName RpcOutcome.ok =
      [Event.logUnlocking memberNumber memberName,
       Event.setUnlocking true,
       Event.rpcCall "reset_failed_login" memberNumber,
       Event.toastSuccess "Account has been unlocked"
         ("Successfully unlocked account for " ++ memberName),
       Event.setUnlocking false] ∧
    handleUnlockAccount memberNumber memberName (RpcOutcome.err m) =
      [Event.logUnlocking memberNumber memberName,
       Event.setUnlocking true,
       Event.rpcCall "reset_failed_login" memberNumber,
       Event.logError "Error unlocking account" m memberNumber,
       Event.logError "Failed to unlock account" m memberNumber,
       Event.toastError "Failed to unlock account" m,
       Event.setUnlocking false] ∧
    handleUnlockAccount memberNumber memberName (RpcOutcome.thrown m) =
      [Event.logUnlocking memberNumber memberName,
       Event.setUnlocking true,
       Event.rpcCall "reset_failed_login" memberNumber,
       Event.logError "Failed to unlock account" m memberNumber,
       Event.toastError "Failed to unlock account" m,
       Event.setUnlocking false] ∧
    unlockButtonDisabled true = true ∧
    unlockButtonLabel true = "Unlocking..." ∧
    unlockButtonDisabled false = false ∧
    unlockButtonLabel false = "Unlock" :=
  ⟨rfl, rfl, rfl, rfl, rfl, rfl, rfl⟩

/-- Claim C7: only the rpc outcome can make the try block fail (on a
successful rpc the block completes normally); the rpc is invoked exactly
once per trigger in every outcome; a failure is caught and surfaced as
the error toast carrying the error message; and the handler runs to
completion (the `finally` write is the last event), never re-throwing. -/
theorem unlock_error_containment (memberNumber memberName m : String) :
    (unlockTryBody memberNumber memberName RpcOutcome.ok).2 = Except.ok () ∧
    ((handleUnlockAccount memberNumber memberName RpcOutcome.ok).filter
      isRpcCall).length = 1 ∧
    ((handleUnlockAccount memberNumber memberName (RpcOutcome.err m)).filter
      isRpcCall).length = 1 ∧
    ((handleUnlockAccount memberNumber memberName (RpcOutcome.thrown m)).filter
      isRpcCall).length = 1 ∧
    Event.toastError "Failed to unlock account" m ∈
      handleUnlockAccount memberNumber memberName (RpcOutcome.err m) ∧
    Event.toastError "Failed to unlock account" m ∈
      handleUnlockAccount memberNumber memberName (RpcOutcome.thrown m) ∧
    (handleUnlockAccount memberNumber memberName (RpcOutcome.err m)).getLast?
      = some (Event.setUnlocking false) ∧
    (handleUnlockAccount memberNumber memberName (RpcOutcome.thrown m)).getLast?
      = some (Event.setUnlocking false) := by
  refine ⟨rfl, rfl, rfl, rfl, ?_, ?_, rfl, rfl⟩
  · simp [handleUnlockAccount, unlockTryBody, catchEvents]
  · simp [handleUnlockAccount, unlockTryBody, catchEvents]

/-- Claim C8: the dialog-visibility state machine starts closed; the
Reset Password button action opens it from any state; the dialog's own
close callback (modelled from the spec as `onOpenChange false`) closes
it from any state; and these are the only two handlers wired to this
state, the callback being `setShowResetDialog` itself (it sets the state
to exactly the boolean it is handed). -/
theorem dialog_state_machine :
    showResetDialogInit = false ∧
    (∀ s, dialogStep s DialogEvent.clickResetPassword = true) ∧
    (∀ s b, dialogStep s (DialogEvent.dialogOpenChange b) = b) ∧
    dialogStep false dialogCloseEvent = false ∧
    dialogStep true dialogCloseEvent = false :=
  ⟨rfl, fun _ => rfl, fun _ _ => rfl, rfl, rfl⟩

/-- Claim C9: the whole observable behaviour — the rendered output, the
unlock handler's event trace, and the countdown effect — is unchanged
when only the `memberId` prop differs; `memberId` is accepted but never
used. -/
theorem memberId_never_used (fmtDistance : Int → String) (p : Props)
    (s : LocalState) (now : Int) (id2 : String) (o : RpcOutcome)
    (timeRemaining : Option String) :
    render fmtDistance { p with memberId := id2 } s now
      = render fmtDistance p s now ∧
    handleUnlock { p with memberId := id2 } o = handleUnlock p o ∧
    lockEffect { p with memberId := id2 } now timeRemaining
      = lockEffect p now timeRemaining :=
  ⟨rfl, rfl, rfl⟩

/-- Claim C10: with a null lock-expiry prop the countdown effect starts
no interval timer and leaves the `timeRemaining` state exactly as it
was; in particular after a transition from a set expiry to null the last
countdown string is retained in state. -/
theorem lock_effect_null_frame (now : Int) (timeRemaining : Option String) :
    lockEffectStep none now timeRemaining = timeRemaining ∧
    lockEffectStartsTimer none = false :=
  ⟨rfl, rfl⟩

/-- Claim C6: for every non-negative failed-login-attempt count the
battery indicator tier equals the spec's four-way partition: 0 the
first tier, 1-2 the second, 3-4 the third, 5 and above the fourth. -/
theorem battery_tier_partition (n : Nat) : BatteryIcon n = batteryTierSpec n := by
  unfold BatteryIcon batteryTierSpec
  split_ifs <;> first | rfl | omega

/-- Claim C5: for a non-null password-set timestamp the age is the floor
of the elapsed milliseconds over one day (86400000 ms); the
classification is warning exactly when the age strictly exceeds 90 days
and success exactly when it is at most 90 (so exactly 90 days is
fresh). -/
theorem password_age_classification (p : Props) (now t : Int)
    (h : p.passwordSetAt = some t) :
    passwordAgeInDays p now = (now - t) / 86400000 ∧
    (passwordAgeStatus p now = AgeStatus.warning
      ↔ 90 < (now - t) / 86400000) ∧
    (passwordAgeStatus p now = AgeStatus.success
      ↔ (now - t) / 86400000 ≤ 90) := by
  have h1 : passwordAgeInDays p now = (now - t) / 86400000 := by
    simp [passwordAgeInDays, h]
  refine ⟨h1, ?_, ?_⟩
  · unfold passwordAgeStatus
    rw [h1]
    split_ifs with hgt <;> simp <;> omega
  · unfold passwordAgeStatus
    rw [h1]
    split_ifs with hgt <;> simp <;> omega

/-- Witness for `password_age_classification` at exactly 90 days of age
(7776000000 ms after the password was set): the classification is
success (fresh). -/
theorem password_age_classification_witness :
    pAge.passwordSetAt = some 0 ∧
    (passwordAgeInDays pAge 7776000000 = (7776000000 - 0 : Int) / 86400000 ∧
     (passwordAgeStatus pAge 7776000000 = AgeStatus.warning
       ↔ 90 < (7776000000 - 0 : Int) / 86400000) ∧
     (passwordAgeStatus pAge 7776000000 = AgeStatus.success
       ↔ (7776000000 - 0 : Int) / 86400000 ≤ 90)) :=
  ⟨rfl, password_age_classification pAge 7776000000 0 rfl⟩

end PasswordMgmt
